import Mathlib

/-!
Verification of the WriteCoach analysis pipeline.

Shallow embedding of the core components of the repository:
text analyzer readability scoring (`text_analyzer.py`), format
classification and format rules (`format_classifier.py`), suggestion
generation with deterministic fallback (`suggestion_generator.py`),
progress tracking (`progress_tracker.py`), and input validation with the
orchestrating pipeline (`input_handler.py`, `main.py`).

Modelling conventions:
- Python floats are modelled as rationals (`ℚ`); `round(x, 2)` is
  modelled by `round2` below.
- The NLTK tokenizer is an external collaborator: analyzer functions take
  its output (sentence list, word list) as arguments.
- The `json` library and the generative-text API are external
  collaborators: they appear as function arguments
  (`String → Option ParsedResponse`, `Except String String`).
- Persistent storage is modelled as a function from user id to an
  optional record, threaded explicitly through the stateful operations.
- Python regular-expression searches used by the classifier are compiled
  by hand into character-list matchers, one definition per pattern.
-/

/-! ### Generic string and list helpers (Python primitive modelling) -/

/-- Python whitespace test (`str.split()` separators, `\s` in regexes). -/
def isWs (c : Char) : Bool := c.isWhitespace

/-- Python regex `\w` word character (ASCII model). -/
def isWordChar (c : Char) : Bool := c.isAlphanum || c == '_'

/-- Lower-case a character list, modelling Python `str.lower()` (ASCII). -/
def lowerL (cs : List Char) : List Char := cs.map Char.toLower

/-- `leadsWith pat cs` is true when `pat` is an initial segment of `cs`. -/
def leadsWith : List Char → List Char → Bool
  | [], _ => true
  | _ :: _, [] => false
  | p :: ps, c :: cs => p == c && leadsWith ps cs

/-- Case-insensitive initial-segment match; on success returns the rest of
the input.  The pattern is given already lower-cased. -/
def ciDrop : List Char → List Char → Option (List Char)
  | [], cs => some cs
  | _ :: _, [] => none
  | p :: ps, c :: cs => if p == c.toLower then ciDrop ps cs else none

/-- `subseqSearch needle hay`: `needle` occurs as a contiguous block of
`hay` (Python `needle in hay`). -/
def subseqSearch (needle : List Char) : List Char → Bool
  | [] => needle == []
  | c :: cs => leadsWith needle (c :: cs) || subseqSearch needle cs

/-- Python `phrase in text.lower()` with `phrase` a lower-case constant,
and `keyword.lower() in text.lower()` for classifier keywords. -/
def ciContainsStr (needle text : String) : Bool :=
  subseqSearch (lowerL needle.toList) (lowerL text.toList)

/-- Worker for `splitWsL`: accumulates the current word (reversed). -/
def splitWsAux : List Char → List Char → List (List Char)
  | [], acc => if acc == [] then [] else [acc.reverse]
  | c :: cs, acc =>
    if isWs c then
      if acc == [] then splitWsAux cs [] else acc.reverse :: splitWsAux cs []
    else splitWsAux cs (c :: acc)

/-- Python `str.split()` (no argument): split on whitespace runs,
dropping empty pieces. -/
def splitWsL (cs : List Char) : List (List Char) := splitWsAux cs []

/-- Python `str.split()` producing strings. -/
def pySplitW (s : String) : List String := (splitWsL s.toList).map String.mk

/-- Worker for `splitOnL`, fuelled to keep the recursion structural.  The
fuel starts at the length of the input, which is enough because every
step consumes at least one character. -/
def splitOnFuel (sep : List Char) : ℕ → List Char → List Char → List (List Char)
  | _, [], acc => [acc.reverse]
  | 0, cs, acc => [acc.reverse ++ cs]
  | n + 1, c :: cs, acc =>
    if leadsWith sep (c :: cs) then
      acc.reverse :: splitOnFuel sep n ((c :: cs).drop sep.length) []
    else
      splitOnFuel sep n cs (c :: acc)

/-- Python `str.split(sep)` for a non-empty separator. -/
def splitOnL (sep : List Char) (cs : List Char) : List (List Char) :=
  splitOnFuel sep cs.length cs []

/-- Python `str.split(sep)` producing strings. -/
def splitOnStr (s sep : String) : List String :=
  (splitOnL sep.toList s.toList).map String.mk

/-- Python `str.strip()` on character lists. -/
def pyStripL (cs : List Char) : List Char :=
  ((cs.dropWhile isWs).reverse.dropWhile isWs).reverse

/-- Python `str.strip()`. -/
def pyStripS (s : String) : String := String.mk (pyStripL s.toList)

/-- Python `' '.join(words)`. -/
def joinSp : List String → String
  | [] => ""
  | [w] => w
  | w :: ws => w ++ " " ++ joinSp ws

/-- Model of Python `round(x, 2)` on the rational model of floats. -/
def round2 (q : ℚ) : ℚ := (round (100 * q) : ℤ) / 100

/-- `searchAnywhereAux p cs`: some suffix of `cs` satisfies `p`
(models an unanchored `re.search`). -/
def searchAnywhereAux (p : List Char → Bool) : List Char → Bool
  | [] => p []
  | c :: cs => p (c :: cs) || searchAnywhereAux p cs

/-- `searchLineStartAux p atStart cs`: some suffix of `cs` beginning at
the start of a line satisfies `p` (models `re.search` of a `^`-anchored
pattern with `re.MULTILINE`). -/
def searchLineStartAux (p : List Char → Bool) (atStart : Bool) : List Char → Bool
  | [] => atStart && p []
  | c :: cs => (atStart && p (c :: cs)) || searchLineStartAux p (c == '\n') cs

/-! ### Text analyzer: readability (`TextAnalyzer._calculate_readability`)

The tokenizer (`nltk.sent_tokenize`, `nltk.word_tokenize`) is an external
collaborator; its outputs are the arguments. -/

/-- The band table of `_calculate_readability` (applied to the unrounded
Flesch approximation, exactly as in the source). -/
def readingLevel (fleschScore : ℚ) : String :=
  if fleschScore ≥ 90 then "Very Easy"
  else if fleschScore ≥ 80 then "Easy"
  else if fleschScore ≥ 70 then "Fairly Easy"
  else if fleschScore ≥ 60 then "Standard"
  else if fleschScore ≥ 50 then "Fairly Difficult"
  else if fleschScore ≥ 30 then "Difficult"
  else "Very Difficult"

/-- `TextAnalyzer._calculate_readability`, with the tokenizer outputs as
inputs.  Returns the `(score, level)` pair of the produced dict. -/
def calculateReadability (sentences words : List String) : ℚ × String :=
  if sentences.isEmpty || words.isEmpty then (0, "Unknown")
  else
    let avgSentenceLength : ℚ := (words.length : ℚ) / (sentences.length : ℚ)
    let avgSyllablesPerWord : ℚ := 3 / 2
    let fleschScore := 206.835 - (1.015 * avgSentenceLength) - (84.6 * avgSyllablesPerWord)
    (round2 fleschScore, readingLevel fleschScore)

/-! ### Format classifier: hand-compiled regex matchers

Each definition embeds one regular expression from
`format_classifier.py`, under the flags used at its call site. -/

/-- Tail of `\s+\w+` after the whitespace run has begun: consume further
whitespace, then require a word character. -/
def afterWsWord : List Char → Bool
  | [] => false
  | c :: cs => if isWs c then afterWsWord cs else isWordChar c

/-- `\s+\w+`: at least one whitespace character, then a word character. -/
def wsThenWord : List Char → Bool
  | [] => false
  | c :: cs => isWs c && afterWsWord cs

/-- `(dear|hi|hello)\s+\w+` at the current position, case-insensitively. -/
def greetingAt (cs : List Char) : Bool :=
  (match ciDrop "dear".toList cs with
   | some rest => wsThenWord rest
   | none => false) ||
  (match ciDrop "hi".toList cs with
   | some rest => wsThenWord rest
   | none => false) ||
  (match ciDrop "hello".toList cs with
   | some rest => wsThenWord rest
   | none => false)

/-- `re.search(r'^(dear|hi|hello)\s+\w+', text, re.IGNORECASE | re.MULTILINE)`
(also covers the pattern variant `^(hi|hello|dear)\s+\w+`, which denotes
the same set of matches). -/
def greetingSearchML (s : String) : Bool :=
  searchLineStartAux greetingAt true s.toList

/-- `re.match(r'^(dear|hi|hello)\s+\w+', text, re.IGNORECASE)`:
anchored at the very start of the text. -/
def greetingMatchStart (s : String) : Bool := greetingAt s.toList

/-- Tail of `\s*$` under `re.MULTILINE`: whitespace characters until the
end of the text or a position just before a newline. -/
def closingTail : List Char → Bool
  | [] => true
  | c :: cs => c == '\n' || (isWs c && closingTail cs)

/-- Tail of `,?\s*$` under `re.MULTILINE`. -/
def commaThenTail : List Char → Bool
  | [] => true
  | c :: cs => if c == ',' then closingTail cs else closingTail (c :: cs)

/-- `(kw₁|…|kwₙ),?\s*$` at the current position, case-insensitively. -/
def closingAt (kws : List String) (cs : List Char) : Bool :=
  kws.any fun w =>
    match ciDrop (lowerL w.toList) cs with
    | some rest => commaThenTail rest
    | none => false

/-- `re.search(r'(sincerely|regards|best),?\s*$', text, re.IGNORECASE | re.MULTILINE)`. -/
def closingSearch3 (s : String) : Bool :=
  searchAnywhereAux (closingAt ["sincerely", "regards", "best"]) s.toList

/-- `re.search(r'(sincerely|regards|best|thanks),?\s*$', text, re.IGNORECASE | re.MULTILINE)`. -/
def closingSearch4 (s : String) : Bool :=
  searchAnywhereAux (closingAt ["sincerely", "regards", "best", "thanks"]) s.toList

/-- One line matches `^[A-Z][^.!?]*:?\s*$` (with `re.MULTILINE` the match
cannot pass a `.`, `!` or `?`, and the nearest usable `$` is the end of
the line holding the capital, so the check is per line). -/
def headingLine (line : List Char) : Bool :=
  match line with
  | [] => false
  | c :: rest => ('A' ≤ c && c ≤ 'Z') && rest.all fun d => !(d == '.' || d == '!' || d == '?')

/-- `re.search(r'^[A-Z][^.!?]*:?\s*$', text, re.MULTILINE)`. -/
def headingSearch (s : String) : Bool :=
  (splitOnL ['\n'] s.toList).any headingLine

/-- Tail of `"[^"]+?"` after the opening quote: at least one non-quote
character, then a later quote. -/
def quoteSpanTail : List Char → Bool
  | [] => false
  | c :: cs => !(c == '"') && cs.contains '"'

/-- `re.search(r'"[^"]+?"', text)`. -/
def quotedSearch (s : String) : Bool :=
  searchAnywhereAux
    (fun cs =>
      match cs with
      | [] => false
      | c :: rest => c == '"' && quoteSpanTail rest)
    s.toList

/-- Sentence-boundary punctuation class `[.!?]`. -/
def isSentPunct (c : Char) : Bool := c == '.' || c == '!' || c == '?'

/-- Tail of `\s*[A-Z][^.!?]*[.!?]` under `re.IGNORECASE`: skip
whitespace, require a letter (the flag — applied to every classifier
pattern at the `classify` call site — makes `[A-Z]` match lower-case
letters as well), then some later sentence punctuation. -/
def sentPatTail : List Char → Bool
  | [] => false
  | c :: cs =>
    if isWs c then sentPatTail cs
    else (('A' ≤ c && c ≤ 'Z') || ('a' ≤ c && c ≤ 'z')) && cs.any isSentPunct

/-- `re.search(r'[.!?]\s*[A-Z][^.!?]*[.!?]', text, re.IGNORECASE | re.MULTILINE)`. -/
def sentPatSearch (s : String) : Bool :=
  searchAnywhereAux
    (fun cs =>
      match cs with
      | [] => false
      | c :: rest => isSentPunct c && sentPatTail rest)
    s.toList

/-- Character class `[\s,]`. -/
def wsOrComma (c : Char) : Bool := isWs c || c == ','

/-- Tail of `(ly)?[\s,]` after an ordinal stem. -/
def optLyThen (cs : List Char) : Bool :=
  (match cs with
   | c :: _ => wsOrComma c
   | [] => false) ||
  (match ciDrop "ly".toList cs with
   | some (c :: _) => wsOrComma c
   | _ => false)

/-- `re.search(r'first(ly)?[\s,]', text, re.IGNORECASE | re.MULTILINE)`. -/
def firstOrdSearch (s : String) : Bool :=
  searchAnywhereAux
    (fun cs =>
      match ciDrop "first".toList cs with
      | some rest => optLyThen rest
      | none => false)
    s.toList

/-- `re.search(r'second(ly)?[\s,]', text, re.IGNORECASE | re.MULTILINE)`. -/
def secondOrdSearch (s : String) : Bool :=
  searchAnywhereAux
    (fun cs =>
      match ciDrop "second".toList cs with
      | some rest => optLyThen rest
      | none => false)
    s.toList

/-- `re.search(r'finally[\s,]', text, re.IGNORECASE | re.MULTILINE)`. -/
def finallyOrdSearch (s : String) : Bool :=
  searchAnywhereAux
    (fun cs =>
      match ciDrop "finally".toList cs with
      | some (c :: _) => wsOrComma c
      | _ => false)
    s.toList

/-- `re.search(r'in conclusion', text, re.IGNORECASE | re.MULTILINE)`. -/
def inConclusionSearch (s : String) : Bool := ciContainsStr "in conclusion" s

/-- `re.search(r'\d+\.\d+', text, ...)`: matches exactly when a digit,
a dot and a digit occur consecutively. -/
def decimalSearch (s : String) : Bool :=
  searchAnywhereAux
    (fun cs =>
      match cs with
      | a :: b :: c :: _ => a.isDigit && b == '.' && c.isDigit
      | _ => false)
    s.toList

/-- `re.search(r'figure \d+', text, re.IGNORECASE | re.MULTILINE)`. -/
def figureNumSearch (s : String) : Bool :=
  searchAnywhereAux
    (fun cs =>
      match ciDrop "figure ".toList cs with
      | some (c :: _) => c.isDigit
      | _ => false)
    s.toList

/-- `re.search(r'table \d+', text, re.IGNORECASE | re.MULTILINE)`. -/
def tableNumSearch (s : String) : Bool :=
  searchAnywhereAux
    (fun cs =>
      match ciDrop "table ".toList cs with
      | some (c :: _) => c.isDigit
      | _ => false)
    s.toList

/-- `re.search(r'section \d+', text, re.IGNORECASE | re.MULTILINE)`. -/
def sectionNumSearch (s : String) : Bool :=
  searchAnywhereAux
    (fun cs =>
      match ciDrop "section ".toList cs with
      | some (c :: _) => c.isDigit
      | _ => false)
    s.toList

/-! ### Format classifier: indicators, structure check and `classify` -/

/-- One entry of `FormatClassifier.format_indicators`.  Each regex string
of the source is represented by its hand-compiled matcher. -/
structure FormatIndicator where
  keywords : List String
  patterns : List (String → Bool)
  structural : List String

/-- `format_indicators['email']`. -/
def emailIndicator : FormatIndicator where
  keywords := ["dear", "sincerely", "regards", "best", "hi", "hello", "subject:", "from:", "to:"]
  patterns := [greetingSearchML, closingSearch3]
  structural := ["short_paragraphs", "greeting", "closing"]

/-- `format_indicators['essay']`. -/
def essayIndicator : FormatIndicator where
  keywords := ["thesis", "conclusion", "furthermore", "however", "therefore", "moreover", "consequently"]
  patterns := [firstOrdSearch, secondOrdSearch, finallyOrdSearch, inConclusionSearch]
  structural := ["introduction", "body_paragraphs", "conclusion"]

/-- `format_indicators['report']`. -/
def reportIndicator : FormatIndicator where
  keywords := ["executive summary", "findings", "recommendations", "analysis", "methodology", "results"]
  patterns := [decimalSearch, figureNumSearch, tableNumSearch, sectionNumSearch]
  structural := ["headings", "numbered_sections", "data_presentation"]

/-- `format_indicators['creative']`. -/
def creativeIndicator : FormatIndicator where
  keywords := ["once upon", "suddenly", "meanwhile", "whispered", "shouted", "felt", "remembered"]
  patterns := [quotedSearch, sentPatSearch]
  structural := ["dialogue", "descriptive_language", "narrative_flow"]

/-- `FormatClassifier.format_indicators`, in dict insertion order. -/
def formatIndicators : List (String × FormatIndicator) :=
  [("email", emailIndicator), ("essay", essayIndicator),
   ("report", reportIndicator), ("creative", creativeIndicator)]

/-- Average paragraph word count used by `_check_structure` (paragraphs
are the pieces of `text.split('\n\n')`; the split is never empty, the
`else 0` branch of the source is kept all the same). -/
def avgParagraphWords (text : String) : ℚ :=
  let paragraphs := splitOnL ['\n', '\n'] text.toList
  if paragraphs.isEmpty then 0
  else ((paragraphs.map fun p => ((splitWsL p).length : ℚ)).sum) / (paragraphs.length : ℚ)

/-- `FormatClassifier._check_structure`. -/
def checkStructure (text : String) (structural : List String) : ℕ :=
  (if structural.contains "short_paragraphs" then
    (if avgParagraphWords text < 75 then 1 else 0) else 0) +
  (if structural.contains "greeting" then
    (if greetingMatchStart text then 2 else 0) else 0) +
  (if structural.contains "closing" then
    (if closingSearch4 text then 2 else 0) else 0) +
  (if structural.contains "headings" then
    (if headingSearch text then 2 else 0) else 0) +
  (if structural.contains "dialogue" then
    (if quotedSearch text then 3 else 0) else 0)

/-- Score loop body of `FormatClassifier.classify`: +1 per keyword
occurring in the lower-cased text, +2 per matching pattern, plus the
structural score. -/
def formatScore (text : String) (ind : FormatIndicator) : ℕ :=
  (ind.keywords.filter fun k => ciContainsStr k text).length +
  2 * (ind.patterns.filter fun p => p text).length +
  checkStructure text ind.structural

/-- The `scores` dict of `classify`, in insertion order. -/
def classifyScores (text : String) : List (String × ℕ) :=
  formatIndicators.map fun p => (p.1, formatScore text p.2)

/-- Python `max(scores.items(), key=lambda x: x[1])`: the first entry
with the maximal value. -/
def firstMax (l : List (String × ℕ)) : String × ℕ :=
  match l with
  | [] => ("", 0)
  | x :: xs => xs.foldl (fun a b => if b.2 > a.2 then b else a) x

/-- Keys of `FormatClassifier.format_rules` (membership test used by the
user-specified-format early return). -/
def knownFormats : List String := ["email", "essay", "report", "creative", "general"]

/-- Scoring branch of `FormatClassifier.classify` (the `scores` dict is
always non-empty, so the source's final `return 'general', 0.5` is dead;
it is omitted here together with the dead `if scores:` test). -/
def classifyByScore (text : String) : String × ℚ :=
  let scores := classifyScores text
  let bestFormat := firstMax scores
  let totalScore : ℕ := (scores.map Prod.snd).sum
  let confidence : ℚ := if 0 < totalScore then (bestFormat.2 : ℚ) / (totalScore : ℚ) else 0
  if confidence < 3 / 10 then ("general", confidence)
  else (bestFormat.1, confidence)

/-- `FormatClassifier.classify`.  A `none`/empty user format is falsy in
`if user_specified_format and user_specified_format in self.format_rules`. -/
def classify (text : String) (userSpecifiedFormat : Option String) : String × ℚ :=
  match userSpecifiedFormat with
  | some f =>
    if f != "" && knownFormats.contains f then (f, 1) else classifyByScore text
  | none => classifyByScore text

/-! ### Format classifier: rules and `apply_format_rules` -/

/-- One value of `FormatClassifier.format_rules`; absent dict keys are
`none`. -/
structure FormatRule where
  min_length : Option ℕ
  max_length : Option ℕ
  preferred_paragraph_length : ℕ
  formality : String
  required_elements : List String
deriving DecidableEq

/-- `format_rules['email']`. -/
def emailRule : FormatRule where
  min_length := none
  max_length := some 500
  preferred_paragraph_length := 50
  formality := "semi-formal"
  required_elements := ["greeting", "body", "closing"]

/-- `format_rules['essay']`. -/
def essayRule : FormatRule where
  min_length := some 300
  max_length := none
  preferred_paragraph_length := 150
  formality := "formal"
  required_elements := ["introduction", "thesis", "body", "conclusion"]

/-- `format_rules['report']`. -/
def reportRule : FormatRule where
  min_length := some 500
  max_length := none
  preferred_paragraph_length := 100
  formality := "formal"
  required_elements := ["executive_summary", "main_content", "conclusions"]

/-- `format_rules['creative']`. -/
def creativeRule : FormatRule where
  min_length := some 200
  max_length := none
  preferred_paragraph_length := 100
  formality := "variable"
  required_elements := ["narrative", "characters_or_imagery"]

/-- `format_rules['general']`. -/
def generalRule : FormatRule where
  min_length := some 50
  max_length := none
  preferred_paragraph_length := 100
  formality := "neutral"
  required_elements := ["coherent_content"]

/-- `self.format_rules.get(format_type, self.format_rules['general'])`. -/
def rulesFor (formatType : String) : FormatRule :=
  if formatType = "email" then emailRule
  else if formatType = "essay" then essayRule
  else if formatType = "report" then reportRule
  else if formatType = "creative" then creativeRule
  else if formatType = "general" then generalRule
  else generalRule

/-- First-paragraph check behind `element_checks['introduction']`
(the split of a string is never empty; the dead `else False` branch of
the conditional expression is kept). -/
def introCheck (t : String) : Bool :=
  match splitOnL ['\n', '\n'] t.toList with
  | [] => false
  | p :: _ => 30 < (splitWsL p).length

/-- `FormatClassifier._check_required_elements`'s `element_checks` dict:
`some (check t)` when `element` has a detector, `none` otherwise. -/
def elementCheck (element : String) (t : String) : Option Bool :=
  match element with
  | "greeting" => some (greetingSearchML t)
  | "closing" => some (closingSearch4 t)
  | "introduction" => some (introCheck t)
  | "thesis" => some (["argue that", "believe that", "this essay will", "this paper will"].any
      fun phrase => ciContainsStr phrase t)
  | "conclusion" => some (["in conclusion", "to conclude", "therefore", "in summary"].any
      fun phrase => ciContainsStr phrase t)
  | "executive_summary" => some (["executive summary", "summary", "overview"].any
      fun w => ciContainsStr w t)
  | "methodology" => some (["methodology", "methods", "approach"].any
      fun w => ciContainsStr w t)
  | "findings" => some (["findings", "results", "outcomes"].any
      fun w => ciContainsStr w t)
  | "recommendations" => some (["recommend", "suggest", "propose"].any
      fun w => ciContainsStr w t)
  | _ => none

/-- `FormatClassifier._check_required_elements`: an element is missing
when it has a detector and the detector fails; elements without a
detector are skipped. -/
def missingElements (text : String) (requiredElements : List String) : List String :=
  requiredElements.filter fun element =>
    match elementCheck element text with
    | some b => !b
    | none => false

/-! ### Analysis data model (shape of `TextAnalyzer.analyze` output) -/

/-- `basic_stats` dict of an analysis. -/
structure BasicStats where
  sentence_count : ℕ
  word_count : ℕ
  avg_words_per_sentence : ℚ
  char_count : ℕ
  unique_words : ℕ
deriving DecidableEq

/-- `readability` dict of an analysis. -/
structure Readability where
  score : ℚ
  level : String
deriving DecidableEq

/-- One style or grammar issue (`{type, text, suggestion, position?}`). -/
structure Issue where
  itype : String
  text : String
  suggestion : String
  position : Option ℕ
deriving DecidableEq

/-- `sentence_analysis` dict of an analysis. -/
structure SentenceAnalysis where
  total_sentences : ℕ
  sentence_types : List String
  sentence_lengths : List ℕ
  variety_score : ℚ
deriving DecidableEq

/-- The analysis dict produced by `TextAnalyzer.analyze`. -/
structure Analysis where
  basic_stats : BasicStats
  readability : Readability
  style_issues : List Issue
  grammar_issues : List Issue
  sentence_analysis : SentenceAnalysis
deriving DecidableEq

instance : Inhabited Analysis :=
  ⟨⟨⟨0, 0, 0, 0, 0⟩, ⟨0, "Unknown"⟩, [], [], ⟨0, [], [], 0⟩⟩⟩

/-! ### `apply_format_rules` -/

/-- One entry of the `recommendations` list. -/
structure Recommendation where
  rtype : String
  issue : String
  suggestion : String
deriving DecidableEq

/-- Return value of `FormatClassifier.apply_format_rules`. -/
structure FormatRulesResult where
  format : String
  rules : FormatRule
  recommendations : List Recommendation
  compliance_score : ℚ
  format_specific_tips : List String
deriving DecidableEq

/-- `FormatClassifier._get_format_specific_tips`. -/
def formatSpecificTips (formatType : String) : List String :=
  if formatType = "email" then
    ["Use a clear, descriptive subject line",
     "Start with a professional greeting",
     "Keep paragraphs concise (2-3 sentences)",
     "End with a specific call to action",
     "Include a professional signature"]
  else if formatType = "essay" then
    ["Start with a compelling hook",
     "Present a clear thesis statement",
     "Use topic sentences for each paragraph",
     "Provide evidence to support claims",
     "End with a strong conclusion that reinforces your thesis"]
  else if formatType = "report" then
    ["Begin with an executive summary",
     "Use clear section headings",
     "Present data visually when possible",
     "Keep language objective and factual",
     "Include actionable recommendations"]
  else if formatType = "creative" then
    ["Engage readers from the first line",
     "Show, don't tell - use sensory details",
     "Develop distinct character voices",
     "Maintain consistent point of view",
     "Create tension and resolution"]
  else if formatType = "general" then
    ["Know your audience",
     "Use clear, concise language",
     "Organize ideas logically",
     "Proofread for errors",
     "Maintain consistent tone"]
  else
    ["Know your audience",
     "Use clear, concise language",
     "Organize ideas logically",
     "Proofread for errors",
     "Maintain consistent tone"]

/-- "Text is below `min_length`" condition of `apply_format_rules`
(`'min_length' in rules and word_count < rules['min_length']`). -/
def wordTooShort (rules : FormatRule) (wordCount : ℕ) : Bool :=
  match rules.min_length with
  | some m => wordCount < m
  | none => false

/-- "Text is above `max_length`" condition of `apply_format_rules`. -/
def wordTooLong (rules : FormatRule) (wordCount : ℕ) : Bool :=
  match rules.max_length with
  | some m => m < wordCount
  | none => false

/-- Average paragraph length of `apply_format_rules` (identical
computation to the one in `_check_structure`). -/
def paragraphsTooLong (rules : FormatRule) (text : String) : Bool :=
  avgParagraphWords text > (rules.preferred_paragraph_length : ℚ) * (3 / 2)

/-- `FormatClassifier.apply_format_rules`. -/
def applyFormatRules (text : String) (formatType : String) (analysis : Analysis) :
    FormatRulesResult :=
  let rules := rulesFor formatType
  let wordCount := analysis.basic_stats.word_count
  let tooShort := wordTooShort rules wordCount
  let tooLong := wordTooLong rules wordCount
  let complianceScore1 : ℚ := 1
  let recsLength : List Recommendation :=
    (if tooShort then
      [⟨"length", "Text is too short for " ++ formatType,
        "Expand to at least " ++ toString ((rules.min_length).getD 0) ++ " words"⟩]
     else []) ++
    (if tooLong then
      [⟨"length", "Text is too long for " ++ formatType,
        "Reduce to maximum " ++ toString ((rules.max_length).getD 0) ++ " words"⟩]
     else [])
  let complianceScore2 := if tooShort then complianceScore1 * (8 / 10) else complianceScore1
  let complianceScore3 := if tooLong then complianceScore2 * (9 / 10) else complianceScore2
  let longParagraphs := paragraphsTooLong rules text
  let recsStructure : List Recommendation :=
    if longParagraphs then
      [⟨"structure", "Paragraphs are too long",
        "Break into shorter paragraphs (~" ++ toString rules.preferred_paragraph_length ++ " words)"⟩]
    else []
  let complianceScore4 := if longParagraphs then complianceScore3 * (9 / 10) else complianceScore3
  let missing := missingElements text rules.required_elements
  let recsMissing : List Recommendation :=
    missing.map fun element =>
      ⟨"missing_element", "Missing " ++ element, "Add a clear " ++ element ++ " section"⟩
  let complianceScore5 := missing.foldl (fun c _ => c * (85 / 100)) complianceScore4
  { format := formatType
    rules := rules
    recommendations := recsLength ++ recsStructure ++ recsMissing
    compliance_score := round2 complianceScore5
    format_specific_tips := formatSpecificTips formatType }

/-- Closed form of the multiplicative compliance decay: starts at 1 and
collects one factor per violated rule. -/
def complianceRaw (tooShort tooLong longParagraphs : Bool) (missingCount : ℕ) : ℚ :=
  (if tooShort then (8 : ℚ) / 10 else 1) *
  (if tooLong then (9 : ℚ) / 10 else 1) *
  (if longParagraphs then (9 : ℚ) / 10 else 1) *
  ((85 : ℚ) / 100) ^ missingCount

/-! ### Suggestion generator (`suggestion_generator.py`) -/

/-- One entry of `specific_improvements`. -/
structure Improvement where
  itype : String
  problem : String
  suggestion : String
  priority : String
deriving DecidableEq

/-- One entry of `rewrite_suggestions`. -/
structure Rewrite where
  original : String
  suggested : String
  reason : String
deriving DecidableEq

/-- The suggestions dict produced by every strategy. -/
structure Suggestions where
  overall_feedback : String
  specific_improvements : List Improvement
  rewrite_suggestions : List Rewrite
  format_specific_tips : List String
deriving DecidableEq

instance : Inhabited Suggestions := ⟨⟨"", [], [], []⟩⟩

/-- `SuggestionGenerator._get_format_tips`. -/
def getFormatTips (writingFormat : String) : List String :=
  if writingFormat = "email" then
    ["Start with a clear subject line",
     "Keep paragraphs short (2-3 sentences)",
     "End with a clear call to action"]
  else if writingFormat = "essay" then
    ["Include a strong thesis statement",
     "Use topic sentences for each paragraph",
     "Provide evidence for your claims"]
  else if writingFormat = "report" then
    ["Use headings and subheadings",
     "Include an executive summary",
     "Use bullet points for key information"]
  else if writingFormat = "creative" then
    ["Show, don't tell",
     "Use vivid sensory details",
     "Develop unique voice and style"]
  else if writingFormat = "general" then
    ["Be clear and concise",
     "Use appropriate tone for audience",
     "Proofread carefully"]
  else
    ["Be clear and concise",
     "Use appropriate tone for audience",
     "Proofread carefully"]

/-- `SuggestionGenerator._get_overall_feedback` (three templates chosen
by readability band). -/
def getOverallFeedback (analysis : Analysis) (writingFormat : String) : String :=
  let readability := analysis.readability.level
  if readability = "Very Easy" ∨ readability = "Easy" then
    "Your " ++ writingFormat ++ " is very readable. Consider adding more sophisticated vocabulary where appropriate."
  else if readability = "Standard" ∨ readability = "Fairly Easy" then
    "Your " ++ writingFormat ++ " has good readability. Minor improvements could enhance clarity."
  else
    "Your " ++ writingFormat ++ " might be difficult to read. Consider simplifying complex sentences."

/-- `SuggestionGenerator._get_specific_improvements`. -/
def getSpecificImprovements (analysis : Analysis) : List Improvement :=
  (analysis.style_issues.map fun issue =>
    ⟨issue.itype, issue.text, issue.suggestion, "medium"⟩) ++
  (analysis.grammar_issues.map fun issue =>
    ⟨issue.itype, issue.text, issue.suggestion, "high"⟩) ++
  (if analysis.sentence_analysis.variety_score < 3 / 10 then
    [⟨"sentence_variety", "Limited sentence variety",
      "Mix different sentence types and lengths", "low"⟩]
   else [])

/-- `SuggestionGenerator._simplify_sentence`: midpoint split of the
whitespace token list, joined as two sentences. -/
def simplifySentence (sentence : String) : String :=
  let words := pySplitW sentence
  if 25 < words.length then
    let midpoint := words.length / 2
    joinSp (words.take midpoint) ++ ". " ++ joinSp (words.drop midpoint)
  else sentence

/-- `SuggestionGenerator._get_rewrite_suggestions`: one entry per
period-split piece with more than 25 whitespace tokens. -/
def getRewriteSuggestions (text : String) : List Rewrite :=
  let sentences := splitOnStr text "."
  sentences.foldr
    (fun sentence acc =>
      if 25 < (pySplitW sentence).length then
        ⟨pyStripS sentence, simplifySentence sentence, "Sentence too long"⟩ :: acc
      else acc)
    []

/-- `SuggestionGenerator._generate_mock_suggestions` (the deterministic
strategy). -/
def generateMockSuggestions (text : String) (analysis : Analysis) (writingFormat : String) :
    Suggestions where
  overall_feedback := getOverallFeedback analysis writingFormat
  specific_improvements := getSpecificImprovements analysis
  rewrite_suggestions := getRewriteSuggestions text
  format_specific_tips := getFormatTips writingFormat

/-- The Python empty dict `{}` passed to `_generate_mock_suggestions` on
parse failure, seen through the `.get` defaults the mock strategy uses:
level `'Unknown'`, no issues, `variety_score` default 1. -/
def emptyAnalysisDict : Analysis :=
  ⟨⟨0, 0, 0, 0, 0⟩, ⟨0, "Unknown"⟩, [], [], ⟨0, [], [], 1⟩⟩

/-- Parsed JSON reply of the generative collaborator
(`overall_feedback`/`improved_version` may be absent; a malformed
`grammar_corrections` entry — not a dict with `error` and `correction` —
is `none`). -/
structure ParsedResponse where
  overall_feedback : Option String
  clarity_suggestions : List String
  structure_suggestions : List String
  grammar_corrections : List (Option (String × String))
  improved_version : Option String

/-- `SuggestionGenerator._convert_to_improvements`. -/
def convertToImprovements (parsed : ParsedResponse) : List Improvement :=
  (parsed.clarity_suggestions.enum.map fun p =>
    ⟨"clarity", "Clarity issue " ++ toString (p.1 + 1), p.2, "medium"⟩) ++
  (parsed.structure_suggestions.enum.map fun p =>
    ⟨"structure", "Structure issue " ++ toString (p.1 + 1), p.2, "medium"⟩) ++
  (parsed.grammar_corrections.filterMap fun c =>
    match c with
    | some (err, corr) => some ⟨"grammar", err, "Change to: " ++ corr, "high"⟩
    | none => none)

/-- `SuggestionGenerator._create_rewrite_suggestions`. -/
def createRewriteSuggestions (parsed : ParsedResponse) : List Rewrite :=
  let improvedVersion := parsed.improved_version.getD ""
  if improvedVersion != "" then
    [⟨"Original text", improvedVersion, "AI suggested comprehensive improvement"⟩]
  else []

/-- Index of the first occurrence of `c` (list length when absent),
modelling Python `str.find` under a containment guard. -/
def firstIdxOf (c : Char) (cs : List Char) : ℕ := cs.findIdx (· == c)

/-- Index of the last occurrence of `c`, modelling Python `str.rfind`
(`none` for `-1`). -/
def lastIdxOf (c : Char) : List Char → Option ℕ
  | [] => none
  | x :: xs =>
    match lastIdxOf c xs with
    | some j => some (j + 1)
    | none => if x == c then some 0 else none

/-- JSON-block extraction of `SuggestionGenerator._parse_ai_response`:
fenced ```json block, else the span from the first `{` to the last `}`
(the whole response when no `}` exists; `start` is never `-1` in the
second branch because `{` was just found). -/
def extractJsonStr (response : String) : String :=
  if subseqSearch "```json".toList response.toList then
    pyStripS ((splitOnStr ((splitOnStr response "```json").getD 1 "") "```").getD 0 "")
  else if subseqSearch ['{'] response.toList then
    let cs := response.toList
    let start := firstIdxOf '{' cs
    match lastIdxOf '}' cs with
    | some j => String.mk ((cs.drop start).take (j + 1 - start))
    | none => response
  else response

/-- `SuggestionGenerator._parse_ai_response`.  The `json.loads` of the
standard library is the external argument `jsonParse` (`none` models a
raised `JSONDecodeError`); on failure the source calls
`_generate_mock_suggestions("", {}, "general")`. -/
def parseAiResponse (jsonParse : String → Option ParsedResponse) (response : String) :
    Suggestions :=
  let jsonStr := extractJsonStr response
  match jsonParse jsonStr with
  | some parsed =>
    { overall_feedback := parsed.overall_feedback.getD "No overall feedback provided"
      specific_improvements := convertToImprovements parsed
      rewrite_suggestions := createRewriteSuggestions parsed
      format_specific_tips := getFormatTips "general" }
  | none => generateMockSuggestions "" emptyAnalysisDict "general"

/-- `SuggestionGenerator._generate_gemini_suggestions`.  The outward API
call is the `requestResult` argument (`Except.error` models a raised
exception, caught by the `except` clause, which falls back to the mock
strategy with the original arguments); `_parse_ai_response` never raises,
so the `try` protects only the request. -/
def generateGeminiSuggestions (jsonParse : String → Option ParsedResponse)
    (requestResult : Except String String)
    (text : String) (analysis : Analysis) (writingFormat : String) : Suggestions :=
  match requestResult with
  | Except.ok responseText => parseAiResponse jsonParse responseText
  | Except.error _ => generateMockSuggestions text analysis writingFormat

/-! ### Progress tracker (`progress_tracker.py`)

Timestamps (`datetime.now().isoformat()`) are modelled as rational day
counts: `.date()` is the floor, and `(t2 - t1).days` is the floor of the
difference.  Storage is a map from user id to an optional record. -/

/-- Metrics projection of `ProgressTracker._extract_metrics`. -/
structure Metrics where
  readability_score : ℚ
  readability_level : String
  style_issues_count : ℕ
  grammar_issues_count : ℕ
  avg_sentence_length : ℚ
  sentence_variety : ℚ
  word_count : ℕ
deriving DecidableEq

/-- `ProgressTracker._extract_metrics`. -/
def extractMetrics (analysis : Analysis) : Metrics where
  readability_score := analysis.readability.score
  readability_level := analysis.readability.level
  style_issues_count := analysis.style_issues.length
  grammar_issues_count := analysis.grammar_issues.length
  avg_sentence_length := analysis.basic_stats.avg_words_per_sentence
  sentence_variety := analysis.sentence_analysis.variety_score
  word_count := analysis.basic_stats.word_count

/-- One stored submission. -/
structure Submission where
  timestamp : ℚ
  analysis : Analysis
  suggestions : Suggestions
  metrics : Metrics
deriving DecidableEq

instance : Inhabited Submission := ⟨⟨0, default, default, extractMetrics default⟩⟩

/-- The `progress` dict: `{'status': 'new_user'}` at creation,
`{'status': 'insufficient_data', ...}` below two submissions, else the
`{'status': 'tracked', ...}` record. -/
inductive Progress where
  | newUser
  | insufficientData
  | tracked (total_submissions : ℕ) (readability_change : ℚ)
      (style_improvement grammar_improvement : ℤ) (readability_trend : String)
      (days_active : ℕ) (consistency_score : ℚ)
deriving DecidableEq

instance : Inhabited Progress := ⟨Progress.newUser⟩

/-- `readability_change` field of a tracked progress (0 otherwise). -/
def progressReadabilityChange : Progress → ℚ
  | Progress.tracked _ c _ _ _ _ _ => c
  | _ => 0

/-- `readability_trend` field of a tracked progress (empty otherwise). -/
def progressTrend : Progress → String
  | Progress.tracked _ _ _ _ t _ _ => t
  | _ => ""

/-- `ProgressTracker._calculate_days_active`: distinct calendar dates. -/
def daysActive (submissions : List Submission) : ℕ :=
  if submissions.isEmpty then 0
  else ((submissions.map fun s => (⌊s.timestamp⌋ : ℤ)).dedup).length

/-- `ProgressTracker._calculate_consistency_score`. -/
def consistencyScore (submissions : List Submission) : ℚ :=
  if submissions.length < 2 then 0
  else
    let timestamps := submissions.map Submission.timestamp
    let intervals := (timestamps.zip timestamps.tail).map fun p => (⌊p.2 - p.1⌋ : ℤ)
    if intervals.isEmpty then 0
    else
      let avgInterval : ℚ := ((intervals.map fun i => (i : ℚ)).sum) / (intervals.length : ℚ)
      if avgInterval ≤ 1 then 1
      else if avgInterval ≤ 3 then 8 / 10
      else if avgInterval ≤ 7 then 6 / 10
      else 4 / 10

/-- The `submissions[-5:] if len(submissions) >= 5 else submissions`
window of `_calculate_progress`. -/
def recentWindow (submissions : List Submission) : List Submission :=
  if 5 ≤ submissions.length then submissions.drop (submissions.length - 5)
  else submissions

/-- `ProgressTracker._calculate_progress`. -/
def calculateProgress (submissions : List Submission) : Progress :=
  if submissions.length < 2 then Progress.insufficientData
  else
    let first := submissions.headI.metrics
    let last := submissions.getLastI.metrics
    let recent := recentWindow submissions
    let readabilityChange := last.readability_score - first.readability_score
    let styleImprovement := (first.style_issues_count : ℤ) - (last.style_issues_count : ℤ)
    let grammarImprovement := (first.grammar_issues_count : ℤ) - (last.grammar_issues_count : ℤ)
    let recentReadability : List ℚ := recent.map fun s => s.metrics.readability_score
    let readabilityTrend :=
      if recentReadability.headI < recentReadability.getLastI then "improving" else "declining"
    Progress.tracked submissions.length (round2 readabilityChange)
      styleImprovement grammarImprovement readabilityTrend
      (daysActive submissions) (consistencyScore submissions)

/-- One improvement area. -/
structure Area where
  area : String
  priority : String
  suggestion : String
deriving DecidableEq

/-- `ProgressTracker._identify_improvement_areas` (latest submission
only; up to four areas). -/
def identifyImprovementAreas (submissions : List Submission) : List Area :=
  if submissions.isEmpty then []
  else
    let latest := submissions.getLastI
    (if latest.metrics.readability_score < 60 then
      [⟨"readability", "high", "Focus on simplifying complex sentences"⟩] else []) ++
    (if 3 < latest.metrics.grammar_issues_count then
      [⟨"grammar", "high", "Review common grammar rules"⟩] else []) ++
    (if latest.metrics.sentence_variety < 3 / 10 then
      [⟨"sentence_variety", "medium", "Mix different sentence types and lengths"⟩] else []) ++
    (if 5 < latest.metrics.style_issues_count then
      [⟨"writing_style", "medium", "Focus on active voice and concise language"⟩] else [])

/-- One achievement. -/
structure Achievement where
  name : String
  description : String
  earned_at : ℚ
deriving DecidableEq

/-- The strictly-increasing test of the "Rising Star" achievement:
`all(recent[i] > recent[i-1] for i in range(1, 3))` on the last three
readability scores. -/
def risingStarCond (submissions : List Submission) : Bool :=
  let recentReadability :=
    (submissions.drop (submissions.length - 3)).map fun s => s.metrics.readability_score
  recentReadability.getD 0 0 < recentReadability.getD 1 0 &&
  recentReadability.getD 1 0 < recentReadability.getD 2 0

/-- `ProgressTracker._calculate_achievements`. -/
def calculateAchievements (submissions : List Submission) : List Achievement :=
  (if 5 ≤ submissions.length then
    [⟨"Getting Started", "Completed 5 writing submissions",
      (submissions.getD 4 default).timestamp⟩]
   else []) ++
  (if 10 ≤ submissions.length then
    [⟨"Consistent Writer", "Completed 10 writing submissions",
      (submissions.getD 9 default).timestamp⟩]
   else []) ++
  (if 3 ≤ submissions.length then
    (if risingStarCond submissions then
      [⟨"Rising Star", "Improved readability for 3 consecutive submissions",
        submissions.getLastI.timestamp⟩]
     else [])
   else [])

/-- One persisted user record. -/
structure UserData where
  user_id : String
  created_at : ℚ
  submissions : List Submission
  progress : Progress
deriving DecidableEq

/-- The persistence collaborator: one optional record per user id. -/
def Storage : Type := String → Option UserData

/-- `ProgressTracker._load_user_data`: the stored record, or a fresh
in-memory one (`created_at` = now, empty submissions, `new_user`
progress). -/
def loadUserData (st : Storage) (userId : String) (now : ℚ) : UserData :=
  match st userId with
  | some data => data
  | none => ⟨userId, now, [], Progress.newUser⟩

/-- `ProgressTracker._save_user_data`: whole-record overwrite. -/
def saveUserData (st : Storage) (userId : String) (data : UserData) : Storage :=
  fun u => if u = userId then some data else st u

/-- Return value of `track_submission`. -/
structure TrackResult where
  submission_tracked : Bool
  current_metrics : Metrics
  overall_progress : Progress
  improvement_areas : List Area
deriving DecidableEq

/-- `ProgressTracker.track_submission`: append one submission, recompute
progress over the whole history, overwrite the stored record. -/
def trackSubmission (st : Storage) (userId : String) (now : ℚ)
    (analysisResult : Analysis) (suggestions : Suggestions) : TrackResult × Storage :=
  let submission : Submission := ⟨now, analysisResult, suggestions, extractMetrics analysisResult⟩
  let userData := loadUserData st userId now
  let newSubmissions := userData.submissions ++ [submission]
  let newProgress := calculateProgress newSubmissions
  let newData : UserData :=
    { userData with submissions := newSubmissions, progress := newProgress }
  let st2 := saveUserData st userId newData
  (⟨true, submission.metrics, newProgress, identifyImprovementAreas newSubmissions⟩, st2)

/-- Report of `get_user_report`: `{'status': 'no_data'}` or the full
record projection. -/
inductive Report where
  | noData
  | report (user_id : String) (member_since : ℚ) (total_submissions : ℕ)
      (progress : Progress) (recent_submissions : List Submission)
      (improvement_areas : List Area) (achievements : List Achievement)
deriving DecidableEq

/-- `ProgressTracker.get_user_report`.  The storage is returned as well
to make the (absent) write effect visible: the source only reads. -/
def getUserReport (st : Storage) (userId : String) (now : ℚ) : Report × Storage :=
  let userData := loadUserData st userId now
  if userData.submissions.isEmpty then (Report.noData, st)
  else
    (Report.report userId userData.created_at userData.submissions.length
      userData.progress (userData.submissions.drop (userData.submissions.length - 5))
      (identifyImprovementAreas userData.submissions)
      (calculateAchievements userData.submissions), st)

/-! ### Input handler and pipeline (`input_handler.py`, `main.py`) -/

/-- `InputHandler.valid_formats`. -/
def validFormats : List String := ["email", "essay", "report", "creative", "general"]

/-- Result dict of `InputHandler.validate_input`. -/
inductive ValidationResult where
  | invalid (error : String)
  | valid (text : String) (format : String) (word_count : ℕ) (char_count : ℕ)
deriving DecidableEq

/-- The `'format': writing_format or 'general'` value after the
known-format normalisation of `validate_input`. -/
def resolveFormat (writingFormat : Option String) : String :=
  let wf :=
    match writingFormat with
    | some f => if f != "" && !(validFormats.contains f) then some "general" else some f
    | none => none
  match wf with
  | some f => if f = "" then "general" else f
  | none => "general"

/-- `InputHandler.validate_input`. -/
def validateInput (text : String) (writingFormat : Option String) : ValidationResult :=
  if text = "" || pyStripS text = "" then ValidationResult.invalid "Text cannot be empty"
  else if (pyStripS text).length < 10 then
    ValidationResult.invalid "Text too short for meaningful analysis"
  else
    ValidationResult.valid (pyStripS text) (resolveFormat writingFormat)
      (pySplitW text).length text.length

/-- `WriteCoachPipeline.process_text`.  The analyzer (NLTK-backed), the
constructor-selected suggestion strategy and the output formatter are
external arguments; `prepare_for_analysis` only repackages the validated
fields and is inlined.  Note the source passes the original
`specified_format` (not the normalised one) to `classify`. -/
def processText
    (analyzeFn : String → Analysis)
    (suggestFn : String → Analysis → String → Suggestions)
    (formatOutput : Analysis → Suggestions → FormatRulesResult → Progress → String)
    (st : Storage) (now : ℚ)
    (text : String) (userId : String) (specifiedFormat : Option String) :
    String × Storage :=
  match validateInput text specifiedFormat with
  | ValidationResult.invalid err => ("Error: " ++ err, st)
  | ValidationResult.valid preparedText _fmt _wc _cc =>
    let analysisResults := analyzeFn preparedText
    let formatType := (classify preparedText specifiedFormat).1
    let formatRulesResult := applyFormatRules preparedText formatType analysisResults
    let suggestions := suggestFn preparedText analysisResults formatType
    let tracked := trackSubmission st userId now analysisResults suggestions
    (formatOutput analysisResults suggestions formatRulesResult tracked.1.overall_progress,
     tracked.2)

/-! ### Shared lemmas -/

/-- `round2` is monotone (Python `round(x, 2)` preserves order). -/
theorem round2_mono {p q : ℚ} (h : p ≤ q) : round2 p ≤ round2 q := by
  unfold round2
  have hr : round (100 * p) ≤ round (100 * q) := by
    rw [round_eq, round_eq]
    exact Int.floor_mono (by linarith)
  have hc : ((round (100 * p) : ℤ) : ℚ) ≤ ((round (100 * q) : ℤ) : ℚ) := by exact_mod_cast hr
  linarith

/-- A conditional-cons `foldr` is a filtered map. -/
theorem foldr_if_filter_map {α β : Type} (p : α → Prop) [DecidablePred p] (f : α → β)
    (l : List α) :
    l.foldr (fun x acc => if p x then f x :: acc else acc) [] =
      (l.filter fun x => p x).map f := by
  induction l with
  | nil => rfl
  | cons a t ih =>
    simp only [List.foldr_cons, List.filter_cons, ih]
    by_cases h : p a <;> simp [h]

/-- `headI` commutes with `map` on non-empty lists. -/
theorem headI_map {α β : Type} [Inhabited α] [Inhabited β] (f : α → β) (l : List α)
    (h : l ≠ []) : (l.map f).headI = f l.headI := by
  cases l with
  | nil => exact absurd rfl h
  | cons a t => rfl

/-- `getLastI` commutes with `map` on non-empty lists. -/
theorem getLastI_map {α β : Type} [Inhabited α] [Inhabited β] (f : α → β) (l : List α)
    (h : l ≠ []) : (l.map f).getLastI = f l.getLastI := by
  rw [List.getLastI_eq_getLast?, List.getLastI_eq_getLast?, List.getLast?_map]
  rcases hl : l.getLast? with _ | a
  · exact absurd (List.getLast?_eq_none_iff.mp hl) h
  · rfl

/-! ### C1: readability is a rounded pure function of the two counts -/

/-- Claim C1 (amended): with zero sentences or words the result is
`(0, "Unknown")`; otherwise the score is the Flesch approximation
`206.835 - 1.015*(word_count/sentence_count) - 84.6*1.5` rounded to two
decimals, the level is the band table applied to the unrounded value,
and the result depends only on the two tokenizer counts. -/
theorem c1_readability (sentences words : List String) :
    (sentences = [] ∨ words = [] → calculateReadability sentences words = (0, "Unknown")) ∧
    (sentences ≠ [] → words ≠ [] →
      calculateReadability sentences words =
        (round2 (206.835 - 1.015 * ((words.length : ℚ) / (sentences.length : ℚ)) - 84.6 * (3 / 2)),
         readingLevel
           (206.835 - 1.015 * ((words.length : ℚ) / (sentences.length : ℚ)) - 84.6 * (3 / 2)))) ∧
    (∀ sentences2 words2 : List String,
      sentences2.length = sentences.length → words2.length = words.length →
      calculateReadability sentences2 words2 = calculateReadability sentences words) := by
  refine ⟨?_, ?_, ?_⟩
  · rintro (rfl | rfl) <;> simp [calculateReadability]
  · intro hs hw
    rw [calculateReadability, if_neg]
    simp [List.isEmpty_iff, hs, hw]
  · intro s2 w2 hsl hwl
    rcases s2 with _ | ⟨a, s2⟩ <;> rcases sentences with _ | ⟨b, s⟩ <;>
      rcases w2 with _ | ⟨c, w2⟩ <;> rcases words with _ | ⟨d, w⟩ <;>
      simp_all [calculateReadability]

/-- Witness for C1's theorem at a concrete tokenizer output. -/
theorem c1_readability_witness :
    calculateReadability ["a", "b"] ["x", "y", "z"] = (7841 / 100, "Fairly Easy") := by
  have h := (c1_readability ["a", "b"] ["x", "y", "z"]).2.1 (by decide) (by decide)
  rw [h]
  simp only [round2, round_eq, List.length_cons, List.length_nil]
  norm_num [readingLevel]

/-- Counterexample to C1 as stated: at three sentences and one word the
returned score is the rounded value `79.6`, not the exact formula value
`206.835 - 1.015*(1/3) - 84.6*1.5 = 238.79/3`. -/
theorem c1_counterexample :
    (calculateReadability ["a", "b", "c"] ["x"]).1 ≠
      206.835 - 1.015 * ((1 : ℚ) / 3) - 84.6 * 1.5 := by
  have h := (c1_readability ["a", "b", "c"] ["x"]).2.1 (by decide) (by decide)
  rw [h]
  simp only [round2, round_eq, List.length_cons, List.length_nil]
  norm_num

/-! ### C7: user-specified known format is returned with confidence 1 -/

/-- Claim C7: for every text and every user-specified format in the
known rule set, `classify` returns that format with confidence 1.0. -/
theorem c7_user_format (text : String) (fmt : String) (h : fmt ∈ knownFormats) :
    classify text (some fmt) = (fmt, 1) := by
  fin_cases h <;> rfl

/-- Witness for C7 at a concrete text and format. -/
theorem c7_user_format_witness :
    classify "The weather is nice today." (some "report") = ("report", 1) :=
  c7_user_format "The weather is nice today." "report" (by decide)

/-! ### C9: a report request for an unseen user does not persist a record -/

/-- Counterexample to C9 as stated: on empty storage, a report request
for `"alice"` returns `no_data` but afterwards the storage still holds
no record for `"alice"` — `get_user_report` never writes. -/
theorem c9_counterexample :
    (getUserReport (fun _ => none) "alice" 0).1 = Report.noData ∧
    (getUserReport (fun _ => none) "alice" 0).2 "alice" = none := ⟨rfl, rfl⟩

/-- Claim C9 (amended): a report request for a user with no persisted
record returns `{status: no_data}` and leaves persistent storage
unchanged; the fresh record built by `_load_user_data` stays in memory
only. -/
theorem c9_report_does_not_persist (st : Storage) (userId : String) (now : ℚ) :
    (getUserReport st userId now).2 = st ∧
    (st userId = none → (getUserReport st userId now).1 = Report.noData) := by
  constructor
  · by_cases h : (loadUserData st userId now).submissions.isEmpty <;>
      simp [getUserReport, h]
  · intro h
    simp [getUserReport, loadUserData, h]

/-- Witness for C9's amended theorem on concrete empty storage. -/
theorem c9_report_witness :
    (getUserReport (fun _ => none) "bob" 1).1 = Report.noData :=
  (c9_report_does_not_persist (fun _ => none) "bob" 1).2 rfl

/-! ### C3: silent fallback of the external suggestion strategy -/

/-- A concrete analysis used in the C3 theorems. -/
def c3Analysis : Analysis :=
  ⟨⟨1, 2, 2, 9, 2⟩, ⟨80, "Easy"⟩, [], [], ⟨1, ["statement"], [2], 1⟩⟩

/-- Counterexample to C3 as stated: a response that fails JSON parsing
makes `_parse_ai_response` fall back to
`_generate_mock_suggestions("", {}, "general")`, which differs from the
deterministic suggestions for the submitted text, analysis and format. -/
theorem c3_counterexample :
    generateGeminiSuggestions (fun _ => none) (Except.ok "this is not json")
        "Some text" c3Analysis "email" ≠
      generateMockSuggestions "Some text" c3Analysis "email" := by decide

/-- Claim C3 (amended): a request failure falls back, silently, to the
deterministic suggestions for the submitted text, analysis and format; a
response failing JSON parsing falls back, silently, to the deterministic
suggestions for empty text, the empty analysis dict and format
`"general"`. -/
theorem c3_silent_fallback (jsonParse : String → Option ParsedResponse)
    (text : String) (analysis : Analysis) (writingFormat : String) :
    (∀ err : String,
      generateGeminiSuggestions jsonParse (Except.error err) text analysis writingFormat =
        generateMockSuggestions text analysis writingFormat) ∧
    (∀ response : String, jsonParse (extractJsonStr response) = none →
      generateGeminiSuggestions jsonParse (Except.ok response) text analysis writingFormat =
        generateMockSuggestions "" emptyAnalysisDict "general") := by
  constructor
  · intro err
    rfl
  · intro response h
    simp [generateGeminiSuggestions, parseAiResponse, h]

/-- Witness for C3's amended theorem with a concrete failing parser and
response. -/
theorem c3_silent_fallback_witness :
    generateGeminiSuggestions (fun _ => none) (Except.ok "no json here")
        "a text" c3Analysis "essay" =
      generateMockSuggestions "" emptyAnalysisDict "general" :=
  (c3_silent_fallback (fun _ => none) "a text" c3Analysis "essay").2 "no json here" rfl

/-! ### C6: the deterministic suggestion strategy -/

/-- Claim C6: the deterministic strategy's `overall_feedback` is one of
three fixed templates chosen by readability band; `specific_improvements`
is one medium entry per style issue, one high entry per grammar issue,
and one extra low entry exactly when `variety_score < 0.3`;
`rewrite_suggestions` has one entry per period-split sentence with more
than 25 tokens, whose suggestion is the midpoint split of the token list
into two sentences with reason "Sentence too long"; and
`format_specific_tips` is the fixed 3-item list keyed by the format. -/
theorem c6_mock_suggestions (text : String) (analysis : Analysis) (writingFormat : String) :
    generateMockSuggestions text analysis writingFormat =
      { overall_feedback :=
          if analysis.readability.level = "Very Easy" ∨ analysis.readability.level = "Easy" then
            "Your " ++ writingFormat ++
              " is very readable. Consider adding more sophisticated vocabulary where appropriate."
          else if analysis.readability.level = "Standard" ∨
              analysis.readability.level = "Fairly Easy" then
            "Your " ++ writingFormat ++
              " has good readability. Minor improvements could enhance clarity."
          else
            "Your " ++ writingFormat ++
              " might be difficult to read. Consider simplifying complex sentences."
        specific_improvements :=
          (analysis.style_issues.map fun issue =>
            ⟨issue.itype, issue.text, issue.suggestion, "medium"⟩) ++
          (analysis.grammar_issues.map fun issue =>
            ⟨issue.itype, issue.text, issue.suggestion, "high"⟩) ++
          (if analysis.sentence_analysis.variety_score < 3 / 10 then
            [⟨"sentence_variety", "Limited sentence variety",
              "Mix different sentence types and lengths", "low"⟩]
           else [])
        rewrite_suggestions :=
          ((splitOnStr text ".").filter fun s => 25 < (pySplitW s).length).map fun s =>
            ⟨pyStripS s, simplifySentence s, "Sentence too long"⟩
        format_specific_tips := getFormatTips writingFormat } ∧
    (∀ s : String, 25 < (pySplitW s).length →
      simplifySentence s =
        joinSp ((pySplitW s).take ((pySplitW s).length / 2)) ++ ". " ++
        joinSp ((pySplitW s).drop ((pySplitW s).length / 2))) ∧
    (getFormatTips writingFormat).length = 3 := by
  refine ⟨?_, ?_, ?_⟩
  · have hrw : getRewriteSuggestions text =
        ((splitOnStr text ".").filter fun s => 25 < (pySplitW s).length).map fun s =>
          ⟨pyStripS s, simplifySentence s, "Sentence too long"⟩ :=
      foldr_if_filter_map (fun s => 25 < (pySplitW s).length) _ _
    simp only [generateMockSuggestions, hrw]
    rfl
  · intro s h
    simp only [simplifySentence]
    rw [if_pos h]
  · unfold getFormatTips
    split_ifs <;> rfl

/-- A 26-token sentence for the C6 witness. -/
def c6LongSentence : String :=
  "a b c d e f g h i j k l m n o p q r s t u v w x y z"

/-- Witness for C6's theorem: the midpoint-split rewrite at a concrete
26-token sentence. -/
theorem c6_mock_suggestions_witness :
    simplifySentence c6LongSentence =
      joinSp ((pySplitW c6LongSentence).take 13) ++ ". " ++
      joinSp ((pySplitW c6LongSentence).drop 13) := by
  have h := (c6_mock_suggestions "x" default "email").2.1 c6LongSentence (by decide)
  have h13 : (pySplitW c6LongSentence).length / 2 = 13 := by decide
  rw [h13] at h
  exact h

/-! ### C2: progress computation -/

/-- The recent window is never empty for a non-empty history. -/
theorem recentWindow_ne_nil (l : List Submission) (h : 1 ≤ l.length) :
    recentWindow l ≠ [] := by
  unfold recentWindow
  split
  · apply List.ne_nil_of_length_pos
    rw [List.length_drop]
    omega
  · exact List.ne_nil_of_length_pos (by omega)

/-- A submission with a given readability score, for the C2 theorems. -/
def c2Submission (score : ℚ) : Submission :=
  ⟨0, default, default, ⟨score, "Unknown", 0, 0, 0, 0, 0⟩⟩

/-- Claim C2 (amended): fewer than 2 submissions give
`insufficient_data`; otherwise `readability_change` is the last score
minus the first, rounded to 2 decimals (so a later score at least 0.005
above the earlier one gives `readability_change > 0`), and
`readability_trend` is `"improving"` exactly when the last score of the
5-element recent window exceeds its first, `"declining"` otherwise,
including ties. -/
theorem c2_progress (submissions : List Submission) :
    (submissions.length < 2 → calculateProgress submissions = Progress.insufficientData) ∧
    (2 ≤ submissions.length →
      calculateProgress submissions =
        Progress.tracked submissions.length
          (round2 (submissions.getLastI.metrics.readability_score -
            submissions.headI.metrics.readability_score))
          ((submissions.headI.metrics.style_issues_count : ℤ) -
            (submissions.getLastI.metrics.style_issues_count : ℤ))
          ((submissions.headI.metrics.grammar_issues_count : ℤ) -
            (submissions.getLastI.metrics.grammar_issues_count : ℤ))
          (if (recentWindow submissions).headI.metrics.readability_score <
              (recentWindow submissions).getLastI.metrics.readability_score
            then "improving" else "declining")
          (daysActive submissions) (consistencyScore submissions)) ∧
    (2 ≤ submissions.length →
      (progressTrend (calculateProgress submissions) = "improving" ↔
        (recentWindow submissions).headI.metrics.readability_score <
          (recentWindow submissions).getLastI.metrics.readability_score) ∧
      (progressTrend (calculateProgress submissions) = "declining" ↔
        ¬ (recentWindow submissions).headI.metrics.readability_score <
          (recentWindow submissions).getLastI.metrics.readability_score)) ∧
    (∀ a b : Submission,
      a.metrics.readability_score + 1 / 200 ≤ b.metrics.readability_score →
      0 < progressReadabilityChange (calculateProgress [a, b])) := by
  have key : 2 ≤ submissions.length →
      calculateProgress submissions =
        Progress.tracked submissions.length
          (round2 (submissions.getLastI.metrics.readability_score -
            submissions.headI.metrics.readability_score))
          ((submissions.headI.metrics.style_issues_count : ℤ) -
            (submissions.getLastI.metrics.style_issues_count : ℤ))
          ((submissions.headI.metrics.grammar_issues_count : ℤ) -
            (submissions.getLastI.metrics.grammar_issues_count : ℤ))
          (if (recentWindow submissions).headI.metrics.readability_score <
              (recentWindow submissions).getLastI.metrics.readability_score
            then "improving" else "declining")
          (daysActive submissions) (consistencyScore submissions) := by
    intro h2
    have hrne : recentWindow submissions ≠ [] := recentWindow_ne_nil _ (by omega)
    simp only [calculateProgress]
    rw [if_neg (by omega)]
    rw [headI_map (fun s => s.metrics.readability_score) _ hrne,
      getLastI_map (fun s => s.metrics.readability_score) _ hrne]
  refine ⟨?_, key, ?_, ?_⟩
  · intro h
    simp only [calculateProgress]
    rw [if_pos h]
  · intro h2
    rw [key h2]
    simp only [progressTrend]
    by_cases hlt : (recentWindow submissions).headI.metrics.readability_score <
        (recentWindow submissions).getLastI.metrics.readability_score <;>
      simp [hlt]
  · intro a b hab
    have heq : progressReadabilityChange (calculateProgress [a, b]) =
        round2 (b.metrics.readability_score - a.metrics.readability_score) := rfl
    rw [heq]
    have hm : round2 ((1 : ℚ) / 200) ≤
        round2 (b.metrics.readability_score - a.metrics.readability_score) :=
      round2_mono (by linarith)
    have hval : round2 ((1 : ℚ) / 200) = 1 / 100 := by
      simp only [round2, round_eq]
      norm_num
    rw [hval] at hm
    linarith

/-- Witness for C2's theorem at a concrete two-submission history. -/
theorem c2_progress_witness :
    progressReadabilityChange (calculateProgress [c2Submission 50, c2Submission 60]) = 10 ∧
    progressTrend (calculateProgress [c2Submission 50, c2Submission 60]) = "improving" := by
  have h := (c2_progress [c2Submission 50, c2Submission 60]).2.1 (by decide)
  rw [h]
  have h1 : [c2Submission 50, c2Submission 60].getLastI = c2Submission 60 := rfl
  have h2 : [c2Submission 50, c2Submission 60].headI = c2Submission 50 := rfl
  have h3 : recentWindow [c2Submission 50, c2Submission 60] =
      [c2Submission 50, c2Submission 60] := rfl
  constructor
  · simp only [progressReadabilityChange]
    rw [h1, h2]
    norm_num [c2Submission, round2, round_eq]
  · simp only [progressTrend]
    rw [h3, h1, h2]
    rw [if_pos (by norm_num [c2Submission])]

/-- Counterexample to C2 as stated: two submissions with the later
readability `0.001` above the earlier one produce
`readability_change = 0`, not `> 0` (`round(0.001, 2) = 0`). -/
theorem c2_counterexample :
    (c2Submission 0).metrics.readability_score <
      (c2Submission (1 / 1000)).metrics.readability_score ∧
    progressReadabilityChange
      (calculateProgress [c2Submission 0, c2Submission (1 / 1000)]) = 0 ∧
    ¬ 0 < progressReadabilityChange
      (calculateProgress [c2Submission 0, c2Submission (1 / 1000)]) := by
  have heq : progressReadabilityChange
      (calculateProgress [c2Submission 0, c2Submission (1 / 1000)]) =
      round2 ((1 : ℚ) / 1000 - 0) := rfl
  refine ⟨by norm_num [c2Submission], ?_, ?_⟩ <;>
    simp only [heq, round2, round_eq] <;> norm_num

/-! ### C8: achievements -/

/-- `Chain'`-form of a strictly increasing 3-element list, matched to the
indexed comparisons of the source. -/
theorem chain_lt_three (l : List ℚ) (h : l.length = 3) :
    List.Chain' (· < ·) l ↔ (l.getD 0 0 < l.getD 1 0 ∧ l.getD 1 0 < l.getD 2 0) := by
  rcases l with _ | ⟨a, l⟩
  · simp at h
  rcases l with _ | ⟨b, l⟩
  · simp at h
  rcases l with _ | ⟨c, l⟩
  · simp at h
  rcases l with _ | ⟨d, l⟩
  · simp [List.chain'_cons]
  · simp at h

/-- Claim C8: "Getting Started" is present iff the count is at least 5
(with `earned_at` the 5th submission's timestamp), "Consistent Writer"
iff at least 10, and "Rising Star" iff there are at least 3 submissions
and the three most recent readability scores strictly increase. -/
theorem c8_achievements (submissions : List Submission) :
    ("Getting Started" ∈ (calculateAchievements submissions).map Achievement.name ↔
      5 ≤ submissions.length) ∧
    ("Consistent Writer" ∈ (calculateAchievements submissions).map Achievement.name ↔
      10 ≤ submissions.length) ∧
    ("Rising Star" ∈ (calculateAchievements submissions).map Achievement.name ↔
      (3 ≤ submissions.length ∧
        List.Chain' (· < ·)
          ((submissions.drop (submissions.length - 3)).map
            fun s => s.metrics.readability_score))) ∧
    (5 ≤ submissions.length →
      (calculateAchievements submissions).find? (fun a => a.name == "Getting Started") =
        some ⟨"Getting Started", "Completed 5 writing submissions",
          (submissions.getD 4 default).timestamp⟩) := by
  have hchain : 3 ≤ submissions.length →
      (risingStarCond submissions = true ↔
        List.Chain' (· < ·)
          ((submissions.drop (submissions.length - 3)).map
            fun s => s.metrics.readability_score)) := by
    intro h3
    rw [chain_lt_three _ (by simp [List.length_drop]; omega)]
    simp [risingStarCond]
  refine ⟨?_, ?_, ?_, ?_⟩
  · by_cases h5 : 5 ≤ submissions.length
    · simp [calculateAchievements, h5]
    · have h10 : ¬ 10 ≤ submissions.length := by omega
      cases hrs : risingStarCond submissions <;>
        simp [calculateAchievements, h5, h10, hrs]
  · by_cases h10 : 10 ≤ submissions.length
    · have h5 : 5 ≤ submissions.length := by omega
      simp [calculateAchievements, h5, h10]
    · cases hrs : risingStarCond submissions <;>
        simp [calculateAchievements, h10, hrs]
  · by_cases h3 : 3 ≤ submissions.length
    · cases hrs : risingStarCond submissions
      · have hc := hchain h3
        rw [hrs] at hc
        simp only [Bool.false_eq_true, false_iff] at hc
        simp only [List.map_drop] at hc
        simp [calculateAchievements, h3, hrs, hc, and_assoc]
      · have hc := hchain h3
        rw [hrs] at hc
        simp only [true_iff] at hc
        simp only [List.map_drop] at hc
        simp [calculateAchievements, h3, hrs, hc]
    · have h5 : ¬ 5 ≤ submissions.length := by omega
      have h10 : ¬ 10 ≤ submissions.length := by omega
      simp [calculateAchievements, h3, h5, h10]
  · intro h5
    simp [calculateAchievements, h5]

/-- A submission with a given timestamp and readability score, for the
C8 witness. -/
def c8Submission (t score : ℚ) : Submission :=
  ⟨t, default, default, ⟨score, "Unknown", 0, 0, 0, 0, 0⟩⟩

/-- A concrete five-submission history for the C8 witness. -/
def c8History : List Submission :=
  [c8Submission 1 10, c8Submission 2 20, c8Submission 3 5,
   c8Submission 4 15, c8Submission 5 25]

/-- Witness for C8's theorem: at five submissions, "Getting Started" is
present with the 5th submission's timestamp. -/
theorem c8_achievements_witness :
    (calculateAchievements c8History).find? (fun a => a.name == "Getting Started") =
      some ⟨"Getting Started", "Completed 5 writing submissions", 5⟩ := by
  have h := (c8_achievements c8History).2.2.2 (by decide)
  exact h.trans rfl

/-! ### C10: input validation gates the pipeline -/

/-- Claim C10: the input is invalid exactly when the stripped text has
fewer than 10 characters — error "Text cannot be empty" when it strips
to empty, "Text too short for meaningful analysis" otherwise — and the
pipeline then returns the error without running any analysis (the result
is the same for every analyzer, suggestion and output collaborator, and
storage is untouched); a stripped length of at least 10 yields a valid
result carrying the stripped text. -/
theorem c10_validate_input (text : String) (writingFormat : Option String)
    (analyzeFn : String → Analysis)
    (suggestFn : String → Analysis → String → Suggestions)
    (formatOutput : Analysis → Suggestions → FormatRulesResult → Progress → String)
    (st : Storage) (now : ℚ) (userId : String) :
    (validateInput text writingFormat =
      (if pyStripS text = "" then ValidationResult.invalid "Text cannot be empty"
       else if (pyStripS text).length < 10 then
         ValidationResult.invalid "Text too short for meaningful analysis"
       else ValidationResult.valid (pyStripS text) (resolveFormat writingFormat)
         (pySplitW text).length text.length)) ∧
    (∀ err : String, validateInput text writingFormat = ValidationResult.invalid err →
      processText analyzeFn suggestFn formatOutput st now text userId writingFormat =
        ("Error: " ++ err, st)) ∧
    (10 ≤ (pyStripS text).length →
      validateInput text writingFormat =
        ValidationResult.valid (pyStripS text) (resolveFormat writingFormat)
          (pySplitW text).length text.length) := by
  refine ⟨?_, ?_, ?_⟩
  · by_cases h0 : pyStripS text = ""
    · rw [if_pos h0]
      simp [validateInput, h0]
    · have htext : ¬ text = "" := by
        intro h
        subst h
        exact h0 rfl
      rw [if_neg h0]
      by_cases hlen : (pyStripS text).length < 10 <;>
        simp [validateInput, htext, h0, hlen]
  · intro err heq
    simp [processText, heq]
  · intro hlen
    have h0 : ¬ pyStripS text = "" := by
      intro h
      rw [h] at hlen
      simp at hlen
    have htext : ¬ text = "" := by
      intro h
      subst h
      exact h0 rfl
    unfold validateInput
    rw [if_neg (by simp [htext, h0]), if_neg (by omega)]

/-- Witness for C10's theorem: the two-character input `"hi"` is
rejected and the pipeline returns the error with storage untouched. -/
theorem c10_validate_input_witness :
    processText (fun _ => default) (fun _ _ _ => default) (fun _ _ _ _ => "")
        (fun _ => none) 0 "hi" "u1" none =
      ("Error: Text too short for meaningful analysis", fun _ => none) := by
  have h := (c10_validate_input "hi" none (fun _ => default) (fun _ _ _ => default)
      (fun _ _ _ _ => "") (fun _ => none) 0 "u1").2.1
      "Text too short for meaningful analysis" rfl
  exact h

/-! ### C4: compliance score -/

/-- One multiplicative penalty factor (`c` when the rule is violated,
`1` otherwise). -/
def penaltyFactor (b : Bool) (c : ℚ) : ℚ := if b then c else 1

/-- `penaltyFactor` is positive for positive `c`. -/
theorem penaltyFactor_pos (b : Bool) (c : ℚ) (hc : 0 < c) : 0 < penaltyFactor b c := by
  rcases b <;> simp [penaltyFactor, hc]

/-- `penaltyFactor` is at most 1 for `c ≤ 1`. -/
theorem penaltyFactor_le_one (b : Bool) (c : ℚ) (hc : c ≤ 1) : penaltyFactor b c ≤ 1 := by
  rcases b <;> simp [penaltyFactor, hc]

/-- Adding a violation can only shrink the factor. -/
theorem penaltyFactor_le (b b' : Bool) (c : ℚ) (hc : c ≤ 1) (h : b = true → b' = true) :
    penaltyFactor b' c ≤ penaltyFactor b c := by
  rcases b with _ | _ <;> rcases b' with _ | _
  · exact le_refl _
  · simpa [penaltyFactor] using hc
  · exact absurd (h rfl) (by simp)
  · exact le_refl _

/-- The multiplicative `*= 0.85` loop is a power. -/
theorem foldl_mul_const (l : List String) (c : ℚ) :
    l.foldl (fun acc _ => acc * (85 / 100)) c = c * (85 / 100) ^ l.length := by
  induction l generalizing c with
  | nil => simp
  | cons a t ih =>
    simp only [List.foldl_cons, ih, List.length_cons, pow_succ]
    ring

/-- At most 4 elements can ever be reported missing (the longest
`required_elements` list has 4 entries). -/
theorem missing_le_four (formatType text : String) :
    (missingElements text (rulesFor formatType).required_elements).length ≤ 4 := by
  refine le_trans (List.length_filter_le _ _) ?_
  unfold rulesFor
  split_ifs <;>
    simp [emailRule, essayRule, reportRule, creativeRule, generalRule]

/-- `complianceRaw` written with penalty factors is bounded above by 1. -/
theorem complianceRaw_le_one (b1 b2 b3 : Bool) (k : ℕ) : complianceRaw b1 b2 b3 k ≤ 1 := by
  rcases b1 <;> rcases b2 <;> rcases b3 <;>
    simp [complianceRaw] <;>
    nlinarith [pow_le_one₀ (by norm_num : (0:ℚ) ≤ 85 / 100) (by norm_num : (85:ℚ) / 100 ≤ 1) (n := k),
      pow_nonneg (by norm_num : (0:ℚ) ≤ 85 / 100) k]

/-- Lower bound for `complianceRaw` when at most 4 elements are
missing. -/
theorem complianceRaw_lower (b1 b2 b3 : Bool) (k : ℕ) (hk : k ≤ 4) :
    (8 : ℚ) / 10 * (9 / 10) * (9 / 10) * (85 / 100) ^ 4 ≤ complianceRaw b1 b2 b3 k := by
  have hp : ((85 : ℚ) / 100) ^ 4 ≤ (85 / 100) ^ k :=
    pow_le_pow_of_le_one (by norm_num) (by norm_num) hk
  have hpn : (0 : ℚ) ≤ (85 / 100) ^ k := by positivity
  rcases b1 <;> rcases b2 <;> rcases b3 <;> simp [complianceRaw] <;> nlinarith [hp, hpn]

/-- Adding violations never increases `complianceRaw`. -/
theorem complianceRaw_antitone (b1 b2 b3 b1' b2' b3' : Bool) (k k' : ℕ)
    (h1 : b1 = true → b1' = true) (h2 : b2 = true → b2' = true)
    (h3 : b3 = true → b3' = true) (hk : k ≤ k') :
    complianceRaw b1' b2' b3' k' ≤ complianceRaw b1 b2 b3 k := by
  have f1 := penaltyFactor_le b1 b1' (8 / 10) (by norm_num) h1
  have f2 := penaltyFactor_le b2 b2' (9 / 10) (by norm_num) h2
  have f3 := penaltyFactor_le b3 b3' (9 / 10) (by norm_num) h3
  have f4 : ((85 : ℚ) / 100) ^ k' ≤ (85 / 100) ^ k :=
    pow_le_pow_of_le_one (by norm_num) (by norm_num) hk
  have p1 := penaltyFactor_pos b1 ((8 : ℚ) / 10) (by norm_num)
  have p2 := penaltyFactor_pos b2 ((9 : ℚ) / 10) (by norm_num)
  have p3 := penaltyFactor_pos b3 ((9 : ℚ) / 10) (by norm_num)
  have p1' := penaltyFactor_pos b1' ((8 : ℚ) / 10) (by norm_num)
  have p2' := penaltyFactor_pos b2' ((9 : ℚ) / 10) (by norm_num)
  have p3' := penaltyFactor_pos b3' ((9 : ℚ) / 10) (by norm_num)
  have hpn : (0 : ℚ) ≤ (85 / 100) ^ k' := by positivity
  have step1 : penaltyFactor b1' (8 / 10) * penaltyFactor b2' (9 / 10) ≤
      penaltyFactor b1 (8 / 10) * penaltyFactor b2 (9 / 10) :=
    mul_le_mul f1 f2 p2'.le p1.le
  have step2 : penaltyFactor b1' (8 / 10) * penaltyFactor b2' (9 / 10) *
        penaltyFactor b3' (9 / 10) ≤
      penaltyFactor b1 (8 / 10) * penaltyFactor b2 (9 / 10) * penaltyFactor b3 (9 / 10) :=
    mul_le_mul step1 f3 p3'.le (mul_nonneg p1.le p2.le)
  have goal : penaltyFactor b1' (8 / 10) * penaltyFactor b2' (9 / 10) *
        penaltyFactor b3' (9 / 10) * (85 / 100) ^ k' ≤
      penaltyFactor b1 (8 / 10) * penaltyFactor b2 (9 / 10) * penaltyFactor b3 (9 / 10) *
        (85 / 100) ^ k :=
    mul_le_mul step2 f4 hpn (mul_nonneg (mul_nonneg p1.le p2.le) p3.le)
  have hraw : ∀ (a b c : Bool) (n : ℕ), complianceRaw a b c n =
      penaltyFactor a (8 / 10) * penaltyFactor b (9 / 10) * penaltyFactor c (9 / 10) *
        (85 / 100) ^ n := by
    intro a b c n
    rfl
  rw [hraw, hraw]
  exact goal

/-- Claim C4: the compliance score is the 2-decimal rounding of a
product that starts at 1 and collects 0.8 for too-short text, 0.9 for
too-long text, 0.9 for over-long paragraphs and 0.85 per missing
required element; elements without a detector are never counted missing;
the score lies in (0, 1]; and adding violations never increases the
rounded product. -/
theorem c4_compliance (text : String) (formatType : String) (analysis : Analysis) :
    ((applyFormatRules text formatType analysis).compliance_score =
      round2 (complianceRaw
        (wordTooShort (rulesFor formatType) analysis.basic_stats.word_count)
        (wordTooLong (rulesFor formatType) analysis.basic_stats.word_count)
        (paragraphsTooLong (rulesFor formatType) text)
        (missingElements text (rulesFor formatType).required_elements).length)) ∧
    (0 < (applyFormatRules text formatType analysis).compliance_score ∧
      (applyFormatRules text formatType analysis).compliance_score ≤ 1) ∧
    (∀ e : String, elementCheck e text = none →
      e ∉ missingElements text (rulesFor formatType).required_elements) ∧
    (∀ b1 b2 b3 b1' b2' b3' : Bool, ∀ k k' : ℕ,
      (b1 = true → b1' = true) → (b2 = true → b2' = true) → (b3 = true → b3' = true) →
      k ≤ k' →
      round2 (complianceRaw b1' b2' b3' k') ≤ round2 (complianceRaw b1 b2 b3 k)) := by
  have hscore : (applyFormatRules text formatType analysis).compliance_score =
      round2 (complianceRaw
        (wordTooShort (rulesFor formatType) analysis.basic_stats.word_count)
        (wordTooLong (rulesFor formatType) analysis.basic_stats.word_count)
        (paragraphsTooLong (rulesFor formatType) text)
        (missingElements text (rulesFor formatType).required_elements).length) := by
    simp only [applyFormatRules]
    rw [foldl_mul_const]
    congr 1
    cases hb1 : wordTooShort (rulesFor formatType) analysis.basic_stats.word_count <;>
      cases hb2 : wordTooLong (rulesFor formatType) analysis.basic_stats.word_count <;>
      cases hb3 : paragraphsTooLong (rulesFor formatType) text <;>
      simp [complianceRaw, penaltyFactor]
  refine ⟨hscore, ⟨?_, ?_⟩, ?_, ?_⟩
  · rw [hscore]
    have hlow := complianceRaw_lower
      (wordTooShort (rulesFor formatType) analysis.basic_stats.word_count)
      (wordTooLong (rulesFor formatType) analysis.basic_stats.word_count)
      (paragraphsTooLong (rulesFor formatType) text)
      (missingElements text (rulesFor formatType).required_elements).length
      (missing_le_four formatType text)
    have hm := round2_mono hlow
    have hval : round2 ((8 : ℚ) / 10 * (9 / 10) * (9 / 10) * (85 / 100) ^ 4) = 34 / 100 := by
      simp only [round2, round_eq]
      norm_num
    rw [hval] at hm
    linarith
  · rw [hscore]
    have hm := round2_mono (complianceRaw_le_one
      (wordTooShort (rulesFor formatType) analysis.basic_stats.word_count)
      (wordTooLong (rulesFor formatType) analysis.basic_stats.word_count)
      (paragraphsTooLong (rulesFor formatType) text)
      (missingElements text (rulesFor formatType).required_elements).length)
    have hone : round2 (1 : ℚ) = 1 := by
      simp only [round2, round_eq]
      norm_num
    rw [hone] at hm
    exact hm
  · intro e he hmem
    rw [missingElements, List.mem_filter, he] at hmem
    simp at hmem
  · intro b1 b2 b3 b1' b2' b3' k k' h1 h2 h3 hk
    exact round2_mono (complianceRaw_antitone b1 b2 b3 b1' b2' b3' k k' h1 h2 h3 hk)

/-- A concrete analysis (10 words) for the C4 witness. -/
def c4Analysis : Analysis :=
  ⟨⟨1, 10, 10, 20, 5⟩, ⟨50, "Fairly Difficult"⟩, [], [], ⟨1, ["statement"], [10], 1⟩⟩

/-- Witness for C4's theorem: a 10-word "report" is too short and lacks
an executive summary, so the score is `round(0.8*0.85, 2) = 0.68`; the
antitonicity part at concrete violation vectors. -/
theorem c4_compliance_witness :
    (applyFormatRules "hi" "report" c4Analysis).compliance_score = 17 / 25 ∧
    round2 (complianceRaw true false false 1) ≤ round2 (complianceRaw false false false 0) := by
  have h := c4_compliance "hi" "report" c4Analysis
  constructor
  · rw [h.1]
    have hts : wordTooShort (rulesFor "report") c4Analysis.basic_stats.word_count = true := rfl
    have htl : wordTooLong (rulesFor "report") c4Analysis.basic_stats.word_count = false := rfl
    have havg : avgParagraphWords "hi" = 1 := by
      have hsplit : splitOnL ['\n', '\n'] ['h', 'i'] = [['h', 'i']] := rfl
      have hw : splitWsL ['h', 'i'] = [['h', 'i']] := rfl
      simp [avgParagraphWords, hsplit, hw]
    have hr : rulesFor "report" = reportRule := rfl
    have hpl : paragraphsTooLong (rulesFor "report") "hi" = false := by
      have hnot : ¬ avgParagraphWords "hi" >
          ((rulesFor "report").preferred_paragraph_length : ℚ) * (3 / 2) := by
        rw [havg, hr]
        norm_num [reportRule]
      simp [paragraphsTooLong, hnot]
    have hmiss : (missingElements "hi" (rulesFor "report").required_elements).length = 1 := rfl
    rw [hts, htl, hpl, hmiss]
    simp only [complianceRaw, round2, round_eq]
    norm_num
  · exact h.2.2.2 false false false true false false 0 1
      (fun _ => rfl) (fun hx => hx) (fun hx => hx) (by omega)

/-! ### C5: classification scoring, tie-break and confidence -/

/-- `p` is the first entry of `l` attaining the maximal score
(Python `max` over dict items). -/
def isFirstMax (l : List (String × ℕ)) (p : String × ℕ) : Prop :=
  ∃ i : ℕ, i < l.length ∧ l.getD i ("", 0) = p ∧
    (∀ j : ℕ, j < l.length → (l.getD j ("", 0)).2 ≤ p.2) ∧
    (∀ j : ℕ, j < i → (l.getD j ("", 0)).2 < p.2)

/-- `firstMax` on a four-element list is the first maximal entry. -/
theorem firstMax_spec_four (p1 p2 p3 p4 : String × ℕ) :
    isFirstMax [p1, p2, p3, p4] (firstMax [p1, p2, p3, p4]) := by
  unfold isFirstMax
  by_cases h1 : p2.2 > p1.2
  · by_cases h2 : p3.2 > p2.2
    · by_cases h3 : p4.2 > p3.2
      · refine ⟨3, by norm_num, by simp [firstMax, h1, h2, h3], ?_, ?_⟩ <;>
          (intro j hj
           have hlen : ([p1, p2, p3, p4] : List (String × ℕ)).length = 4 := rfl
           have hj4 : j < 4 := by omega
           interval_cases j <;> simp [firstMax, h1, h2, h3] <;> omega)
      · refine ⟨2, by norm_num, by simp [firstMax, h1, h2, h3], ?_, ?_⟩ <;>
          (intro j hj
           have hlen : ([p1, p2, p3, p4] : List (String × ℕ)).length = 4 := rfl
           have hj4 : j < 4 := by omega
           interval_cases j <;> simp [firstMax, h1, h2, h3] <;> omega)
    · by_cases h3 : p4.2 > p2.2
      · refine ⟨3, by norm_num, by simp [firstMax, h1, h2, h3], ?_, ?_⟩ <;>
          (intro j hj
           have hlen : ([p1, p2, p3, p4] : List (String × ℕ)).length = 4 := rfl
           have hj4 : j < 4 := by omega
           interval_cases j <;> simp [firstMax, h1, h2, h3] <;> omega)
      · refine ⟨1, by norm_num, by simp [firstMax, h1, h2, h3], ?_, ?_⟩ <;>
          (intro j hj
           have hlen : ([p1, p2, p3, p4] : List (String × ℕ)).length = 4 := rfl
           have hj4 : j < 4 := by omega
           interval_cases j <;> simp [firstMax, h1, h2, h3] <;> omega)
  · by_cases h2 : p3.2 > p1.2
    · by_cases h3 : p4.2 > p3.2
      · refine ⟨3, by norm_num, by simp [firstMax, h1, h2, h3], ?_, ?_⟩ <;>
          (intro j hj
           have hlen : ([p1, p2, p3, p4] : List (String × ℕ)).length = 4 := rfl
           have hj4 : j < 4 := by omega
           interval_cases j <;> simp [firstMax, h1, h2, h3] <;> omega)
      · refine ⟨2, by norm_num, by simp [firstMax, h1, h2, h3], ?_, ?_⟩ <;>
          (intro j hj
           have hlen : ([p1, p2, p3, p4] : List (String × ℕ)).length = 4 := rfl
           have hj4 : j < 4 := by omega
           interval_cases j <;> simp [firstMax, h1, h2, h3] <;> omega)
    · by_cases h3 : p4.2 > p1.2
      · refine ⟨3, by norm_num, by simp [firstMax, h1, h2, h3], ?_, ?_⟩ <;>
          (intro j hj
           have hlen : ([p1, p2, p3, p4] : List (String × ℕ)).length = 4 := rfl
           have hj4 : j < 4 := by omega
           interval_cases j <;> simp [firstMax, h1, h2, h3] <;> omega)
      · refine ⟨0, by norm_num, by simp [firstMax, h1, h2, h3], ?_, ?_⟩ <;>
          (intro j hj
           have hlen : ([p1, p2, p3, p4] : List (String × ℕ)).length = 4 := rfl
           have hj4 : j < 4 := by omega
           interval_cases j <;> simp [firstMax, h1, h2, h3] <;> omega)

/-- Claim C5: without a user-specified format, the returned confidence
is winner-score over total (0 when the total is 0); a confidence below
0.3 forces format "general" while keeping the computed confidence, and
otherwise the winner is returned; the winner is the first maximal entry
of the scores computed in the fixed order email, essay, report,
creative. -/
theorem c5_classify (text : String) :
    ((classify text none).2 =
      (if 0 < ((classifyScores text).map Prod.snd).sum then
        ((firstMax (classifyScores text)).2 : ℚ) /
          (((classifyScores text).map Prod.snd).sum : ℚ)
       else 0)) ∧
    ((classify text none).2 < 3 / 10 → (classify text none).1 = "general") ∧
    (3 / 10 ≤ (classify text none).2 →
      (classify text none).1 = (firstMax (classifyScores text)).1) ∧
    isFirstMax (classifyScores text) (firstMax (classifyScores text)) ∧
    classifyScores text =
      [("email", formatScore text emailIndicator),
       ("essay", formatScore text essayIndicator),
       ("report", formatScore text reportIndicator),
       ("creative", formatScore text creativeIndicator)] := by
  have hsplit : classify text none =
      (if (if 0 < ((classifyScores text).map Prod.snd).sum then
          ((firstMax (classifyScores text)).2 : ℚ) /
            (((classifyScores text).map Prod.snd).sum : ℚ)
         else 0) < 3 / 10 then
        ("general",
          (if 0 < ((classifyScores text).map Prod.snd).sum then
            ((firstMax (classifyScores text)).2 : ℚ) /
              (((classifyScores text).map Prod.snd).sum : ℚ)
           else 0))
       else
        ((firstMax (classifyScores text)).1,
          (if 0 < ((classifyScores text).map Prod.snd).sum then
            ((firstMax (classifyScores text)).2 : ℚ) /
              (((classifyScores text).map Prod.snd).sum : ℚ)
           else 0))) := rfl
  refine ⟨?_, ?_, ?_, ?_, rfl⟩
  · rw [hsplit]
    split_ifs <;> rfl
  · intro h
    rw [hsplit] at h ⊢
    by_cases hc : (if 0 < ((classifyScores text).map Prod.snd).sum then
        ((firstMax (classifyScores text)).2 : ℚ) /
          (((classifyScores text).map Prod.snd).sum : ℚ)
       else 0) < 3 / 10
    · rw [if_pos hc]
    · rw [if_neg hc] at h
      exact absurd h hc
  · intro h
    rw [hsplit] at h ⊢
    by_cases hc : (if 0 < ((classifyScores text).map Prod.snd).sum then
        ((firstMax (classifyScores text)).2 : ℚ) /
          (((classifyScores text).map Prod.snd).sum : ℚ)
       else 0) < 3 / 10
    · rw [if_pos hc] at h
      exact absurd hc (not_lt.mpr h)
    · rw [if_neg hc]
  · have hs : classifyScores text =
        [("email", formatScore text emailIndicator),
         ("essay", formatScore text essayIndicator),
         ("report", formatScore text reportIndicator),
         ("creative", formatScore text creativeIndicator)] := rfl
    rw [hs]
    exact firstMax_spec_four _ _ _ _

/-- Witness for C5's theorem: `"zzz qqq"` matches only the email
short-paragraph structural indicator, so the scores are
`[1, 0, 0, 0]`, the confidence is `1/1 = 1 ≥ 0.3`, and the winner
"email" is returned. -/
theorem c5_classify_witness : classify "zzz qqq" none = ("email", 1) := by
  have havg : avgParagraphWords "zzz qqq" = 2 := by
    have hsplit : splitOnL ['\n', '\n'] ['z', 'z', 'z', ' ', 'q', 'q', 'q'] =
        [['z', 'z', 'z', ' ', 'q', 'q', 'q']] := rfl
    have hw : splitWsL ['z', 'z', 'z', ' ', 'q', 'q', 'q'] =
        [['z', 'z', 'z'], ['q', 'q', 'q']] := rfl
    simp [avgParagraphWords, hsplit, hw]
  have hcs : checkStructure "zzz qqq" emailIndicator.structural = 1 := by
    simp only [checkStructure, emailIndicator]
    rw [if_pos (show avgParagraphWords "zzz qqq" < 75 by rw [havg]; norm_num)]
    rfl
  have hemail : formatScore "zzz qqq" emailIndicator = 1 := by
    have hk : (emailIndicator.keywords.filter fun k => ciContainsStr k "zzz qqq").length = 0 := rfl
    have hp : (emailIndicator.patterns.filter fun p => p "zzz qqq").length = 0 := rfl
    simp [formatScore, hk, hp, hcs]
  have hessay : formatScore "zzz qqq" essayIndicator = 0 := rfl
  have hreport : formatScore "zzz qqq" reportIndicator = 0 := rfl
  have hcreative : formatScore "zzz qqq" creativeIndicator = 0 := rfl
  have hs : classifyScores "zzz qqq" =
      [("email", 1), ("essay", 0), ("report", 0), ("creative", 0)] := by
    simp [classifyScores, formatIndicators, hemail, hessay, hreport, hcreative]
  have h := c5_classify "zzz qqq"
  have hconf : (classify "zzz qqq" none).2 = 1 := by
    rw [h.1, hs]
    norm_num [firstMax]
  have hfmt : (classify "zzz qqq" none).1 = (firstMax (classifyScores "zzz qqq")).1 :=
    h.2.2.1 (by rw [hconf]; norm_num)
  have hfm : firstMax (classifyScores "zzz qqq") = ("email", 1) := by
    rw [hs]
    rfl
  have h1 : (classify "zzz qqq" none).1 = "email" := by rw [hfmt, hfm]
  calc classify "zzz qqq" none = ((classify "zzz qqq" none).1, (classify "zzz qqq" none).2) := rfl
    _ = ("email", 1) := by rw [h1, hconf]
